import Mathlib

/-!
Shallow embedding of the thalex-quoter repository (Python) in Lean 4.

Conventions of the embedding:
* Python floats are modelled as exact rationals (`ℚ`).  At every concrete
  input used below the Python float computation produces the same
  tick-rounded output as the exact rational computation.
* Python's built-in `round` (round-half-to-even) is modelled by
  `roundHalfEven`.
* Fallible exchange calls (`tlx.amend`, `tlx.insert`) are modelled by an
  explicit `CallOutcome` argument: `ok` for a call that returns, or
  `raised msg` for a call that raises an exception with text `msg`.
* Stateful methods are modelled as pure functions from their inputs and the
  relevant pieces of `Quoter` state to the new state plus the list of
  exchange actions issued.
-/

namespace ThalexQuoter

/-! ### String helpers (Python `str.lower` and the `in` substring test) -/

/-- Python `str.lower`, character by character. -/
def lowerStr (s : String) : String := String.mk (s.data.map Char.toLower)

/-- Does the character list `l` start with the character list `p`? -/
def charListStartsWith : List Char → List Char → Bool
  | [], _ => true
  | _ :: _, [] => false
  | p :: ps, c :: cs => (p == c) && charListStartsWith ps cs

/-- Does the character list `l` contain `pat` as a contiguous sublist? -/
def charListHasSub (pat : List Char) : List Char → Bool
  | [] => pat.isEmpty
  | c :: cs => charListStartsWith pat (c :: cs) || charListHasSub pat cs

/-- Python's `pat in s` substring test. -/
def strContains (s pat : String) : Bool := charListHasSub pat.data s.data

/-! ### Round-half-to-even (Python's built-in `round`) -/

/-- Python's built-in `round` on an exact rational: round to the nearest
integer, ties going to the even integer. -/
def roundHalfEven (q : ℚ) : ℤ :=
  if q - ⌊q⌋ < 1/2 then ⌊q⌋
  else if 1/2 < q - ⌊q⌋ then ⌊q⌋ + 1
  else if ⌊q⌋ % 2 = 0 then ⌊q⌋ else ⌊q⌋ + 1

theorem roundHalfEven_le (q : ℚ) : (roundHalfEven q : ℚ) ≤ q + 1/2 := by
  unfold roundHalfEven
  have h1 : (⌊q⌋ : ℚ) ≤ q := Int.floor_le q
  have h2 : q < ⌊q⌋ + 1 := Int.lt_floor_add_one q
  split_ifs <;> push_cast <;> linarith

theorem roundHalfEven_ge (q : ℚ) : q - 1/2 ≤ (roundHalfEven q : ℚ) := by
  unfold roundHalfEven
  have h1 : (⌊q⌋ : ℚ) ≤ q := Int.floor_le q
  have h2 : q < ⌊q⌋ + 1 := Int.lt_floor_add_one q
  split_ifs <;> push_cast <;> linarith

theorem roundHalfEven_intCast (n : ℤ) : roundHalfEven (n : ℚ) = n := by
  unfold roundHalfEven
  rw [Int.floor_intCast n]
  norm_num

/-- Evaluation helper: below the midpoint the round is the floor. -/
theorem roundHalfEven_eq_floor (q : ℚ) (n : ℤ) (hn : ⌊q⌋ = n)
    (h : q - n < 1/2) : roundHalfEven q = n := by
  unfold roundHalfEven
  rw [hn, if_pos h]

/-- Evaluation helper: above the midpoint the round is the ceiling. -/
theorem roundHalfEven_eq_ceil (q : ℚ) (n : ℤ) (hn : ⌊q⌋ = n)
    (h : 1/2 < q - n) : roundHalfEven q = n + 1 := by
  unfold roundHalfEven
  rw [hn]
  have h2 : ¬ (q - (n:ℚ) < 1/2) := by linarith
  rw [if_neg h2, if_pos h]

/-! ### Configuration (`config.py`, `QuoterConfig` / global `cfg`) -/

/-- The fields of `config.QuoterConfig` that the quoting logic reads
(network omitted; floats as exact rationals). -/
structure QuoterConfig where
  instrument : String
  order_label : String
  price_tick : ℚ
  size_tick : ℚ
  min_spread_bps : ℚ
  max_spread_bps : ℚ
  volatility_multiplier : ℚ
  bid_fill_cooldown : ℚ
  ask_fill_cooldown : ℚ
  bid_fill_recovery : ℚ
  ask_fill_recovery : ℚ
  recovery_spread_multiplier : ℚ
  amend_threshold : ℚ
  size : ℚ
  max_position : ℚ
  fee_rate_bps : ℚ
  bid_quote_id : String
  ask_quote_id : String

/-- The global `cfg = QuoterConfig()` instance from `config.py`; the two
quote ids are the string forms of `quote_ids["bid"][0] = 1001` and
`quote_ids["ask"][0] = 1002` as used by `str(...)` at the call sites. -/
def cfg : QuoterConfig where
  instrument := "BTC-PERPETUAL"
  order_label := "simple_quoter"
  price_tick := 1
  size_tick := 1/1000
  min_spread_bps := 1/2
  max_spread_bps := 5/2
  volatility_multiplier := 1/2
  bid_fill_cooldown := 5
  ask_fill_cooldown := 5
  bid_fill_recovery := 30
  ask_fill_recovery := 30
  recovery_spread_multiplier := 3
  amend_threshold := 5
  size := 1/100
  max_position := 3/10
  fee_rate_bps := 5/2
  bid_quote_id := "1001"
  ask_quote_id := "1002"

/-! ### `utils.py` -/

/-- `utils.round_to_tick`: round a price to the nearest multiple of
`cfg.price_tick` (Python `round`, i.e. half-to-even). -/
def round_to_tick (value : ℚ) : ℚ :=
  cfg.price_tick * (roundHalfEven (value / cfg.price_tick) : ℚ)

/-- `utils.round_size`: round a size to the nearest multiple of
`cfg.size_tick`. -/
def round_size (size : ℚ) : ℚ :=
  cfg.size_tick * (roundHalfEven (size / cfg.size_tick) : ℚ)

theorem round_to_tick_eq (v : ℚ) : round_to_tick v = (roundHalfEven v : ℚ) := by
  unfold round_to_tick
  norm_num [cfg]

theorem round_to_tick_lt (v : ℚ) : round_to_tick v ≤ v + 1/2 := by
  rw [round_to_tick_eq]
  exact roundHalfEven_le v

theorem round_to_tick_gt (v : ℚ) : v - 1/2 ≤ round_to_tick v := by
  rw [round_to_tick_eq]
  exact roundHalfEven_ge v

theorem round_size_le (s : ℚ) : round_size s ≤ s + 1/2000 := by
  unfold round_size
  have ht : cfg.size_tick = 1/1000 := rfl
  rw [ht]
  have h2 : s / (1/1000 : ℚ) = s * 1000 := by ring
  rw [h2]
  have h := roundHalfEven_le (s * 1000)
  linarith

/-! ### `not_so_simple_quoter.py`: cooldown / recovery state -/

/-- The per-side cooldown/recovery fields of `Quoter` state
(`last_*_fill_time`, `*_cooldown_until`, `*_recovery_until`). -/
structure CooldownState where
  last_bid_fill_time : Option ℚ
  bid_cooldown_until : Option ℚ
  bid_recovery_until : Option ℚ
  last_ask_fill_time : Option ℚ
  ask_cooldown_until : Option ℚ
  ask_recovery_until : Option ℚ
deriving DecidableEq

/-- The all-`None` initial cooldown state set in `Quoter.__init__`. -/
def initialCooldownState : CooldownState :=
  ⟨none, none, none, none, none, none⟩

/-- The fill branch of `Quoter._on_order_update` (lines 131-145): on a
`"filled"` status for the bid (resp. ask) quote id, overwrite that side's
fill time and both thresholds from the new fill time. -/
def on_order_update_fill (s : CooldownState) (client_order_id status : String)
    (fill_time : ℚ) : CooldownState :=
  if status == "filled" then
    if client_order_id == cfg.bid_quote_id then
      { s with last_bid_fill_time := some fill_time
               bid_cooldown_until := some (fill_time + cfg.bid_fill_cooldown)
               bid_recovery_until :=
                 some (fill_time + cfg.bid_fill_cooldown + cfg.bid_fill_recovery) }
    else if client_order_id == cfg.ask_quote_id then
      { s with last_ask_fill_time := some fill_time
               ask_cooldown_until := some (fill_time + cfg.ask_fill_cooldown)
               ask_recovery_until :=
                 some (fill_time + cfg.ask_fill_cooldown + cfg.ask_fill_recovery) }
    else s
  else s

/-- `update_quotes` line 255/256: a side is in cooldown iff its
`*_cooldown_until` is set and the current time is before it. -/
def inCooldownFlag (untilTime : Option ℚ) (now : ℚ) : Bool :=
  match untilTime with
  | some t => decide (now < t)
  | none => false

/-- `update_quotes` line 257/258: a side is in recovery iff its
`*_recovery_until` is set, the current time is before it, and the side is
not in cooldown. -/
def inRecoveryFlag (recUntil : Option ℚ) (now : ℚ) (inCd : Bool) : Bool :=
  (match recUntil with
   | some t => decide (now < t)
   | none => false) && !inCd

/-- The three side phases described by the spec's cooldown/recovery state
machine, as decided by the flags computed in `update_quotes`. -/
inductive SidePhase where
  | normal
  | cooldown
  | recovery
deriving DecidableEq

/-- Phase of one side at time `now`, from that side's thresholds, using
the exact flag computations of `update_quotes`. -/
def sidePhase (cdUntil recUntil : Option ℚ) (now : ℚ) : SidePhase :=
  let cd := inCooldownFlag cdUntil now
  let rc := inRecoveryFlag recUntil now cd
  if cd then .cooldown else if rc then .recovery else .normal

/-! ### `not_so_simple_quoter.py`: `update_quotes` (lines 248-362) -/

/-- Lines 275-278: base spread from volatility, or `min_spread_bps` when
volatility is unknown. -/
def base_spread (vol : Option ℚ) : ℚ :=
  match vol with
  | some v =>
      cfg.min_spread_bps +
        (cfg.max_spread_bps - cfg.min_spread_bps) * v * cfg.volatility_multiplier
  | none => cfg.min_spread_bps

/-- Lines 281-283: quadratic position factor of the clamped position. -/
def position_factor (P : ℚ) : ℚ :=
  (|max (min P cfg.max_position) (-cfg.max_position)| / cfg.max_position) ^ 2

/-- Line 285: bid spread before the recovery multiplier. -/
def bid_spread_raw (P : ℚ) (vol : Option ℚ) : ℚ :=
  if 0 < P then base_spread vol * (1 + position_factor P) else base_spread vol

/-- Line 286: ask spread before the recovery multiplier. -/
def ask_spread_raw (P : ℚ) (vol : Option ℚ) : ℚ :=
  if P < 0 then base_spread vol * (1 + position_factor P) else base_spread vol

/-- Lines 289-296: multiply a side's spread by
`recovery_spread_multiplier` when that side is in recovery. -/
def apply_recovery (s : ℚ) (inRec : Bool) : ℚ :=
  if inRec then s * cfg.recovery_spread_multiplier else s

/-- Line 308: raw bid price, spread (in bps) applied as an offset below
mid and rounded to the price tick. -/
def raw_bid_price (mid s : ℚ) : ℚ := round_to_tick (mid - s / 10000 * mid)

/-- Line 309: raw ask price, symmetric above mid. -/
def raw_ask_price (mid s : ℚ) : ℚ := round_to_tick (mid + s / 10000 * mid)

/-- Lines 312-314: market-crossing guard for the bid. -/
def guard_bid (p : ℚ) (bestBid : Option ℚ) : ℚ :=
  match bestBid with
  | none => p
  | some bb => if p ≥ bb then round_to_tick (bb - cfg.price_tick) else p

/-- Lines 316-318: market-crossing guard for the ask. -/
def guard_ask (p : ℚ) (bestAsk : Option ℚ) : ℚ :=
  match bestAsk with
  | none => p
  | some ba => if p ≤ ba then round_to_tick (ba + cfg.price_tick) else p

/-- Lines 321-324: volatility-dependent size damping factor. -/
def size_scale (vol : Option ℚ) : ℚ :=
  match vol with
  | some v => 1 / (1 + v * cfg.volatility_multiplier)
  | none => 1

/-- Lines 329-339: the bid/ask sizes, with hard zero on an over-exposed
side and a position cap before size-tick rounding. -/
def quote_sizes (P adjusted_size : ℚ) : ℚ × ℚ :=
  if P ≥ cfg.max_position then
    (0, round_size (max (min adjusted_size (cfg.max_position + P)) 0))
  else if P ≤ -cfg.max_position then
    (round_size (max (min adjusted_size (cfg.max_position - P)) 0), 0)
  else
    (round_size (max (min adjusted_size (cfg.max_position - P)) 0),
     round_size (max (min adjusted_size (cfg.max_position + P)) 0))

/-- The quantities `update_quotes` computes before acting on the slots. -/
structure QuoteComputation where
  bid_in_cooldown : Bool
  ask_in_cooldown : Bool
  bid_in_recovery : Bool
  ask_in_recovery : Bool
  bid_spread : ℚ
  ask_spread : ℚ
  bid_price : ℚ
  ask_price : ℚ
  bid_size : ℚ
  ask_size : ℚ
deriving DecidableEq

/-- The body of `update_quotes` past its early returns, assembling the
computations of lines 274-339. -/
def compute_quotes (P : ℚ) (vol : Option ℚ)
    (bidCd askCd bidRec askRec : Bool) (newMid : ℚ)
    (bestBid bestAsk : Option ℚ) : QuoteComputation :=
  let bs := apply_recovery (bid_spread_raw P vol) bidRec
  let as' := apply_recovery (ask_spread_raw P vol) askRec
  let sz := quote_sizes P (cfg.size * size_scale vol)
  { bid_in_cooldown := bidCd
    ask_in_cooldown := askCd
    bid_in_recovery := bidRec
    ask_in_recovery := askRec
    bid_spread := bs
    ask_spread := as'
    bid_price := guard_bid (raw_bid_price newMid bs) bestBid
    ask_price := guard_ask (raw_ask_price newMid as') bestAsk
    bid_size := sz.1
    ask_size := sz.2 }

/-- `Quoter.update_quotes` (lines 248-345): `none` models the early
returns (unknown position at line 249, both sides cooling down at line
270); otherwise the computed quote quantities. -/
def update_quotes (position vol : Option ℚ)
    (bidCooldownUntil askCooldownUntil bidRecoveryUntil askRecoveryUntil : Option ℚ)
    (currentTime newMid : ℚ) (bestBid bestAsk : Option ℚ) :
    Option QuoteComputation :=
  match position with
  | none => none
  | some P =>
    let bidCd := inCooldownFlag bidCooldownUntil currentTime
    let askCd := inCooldownFlag askCooldownUntil currentTime
    let bidRec := inRecoveryFlag bidRecoveryUntil currentTime bidCd
    let askRec := inRecoveryFlag askRecoveryUntil currentTime askCd
    if bidCd && askCd then none
    else some (compute_quotes P vol bidCd askCd bidRec askRec newMid bestBid bestAsk)

/-! ### `not_so_simple_quoter.py`: order reconciliation (lines 364-424) -/

/-- Order direction (`thalex.Direction`). -/
inductive Direction where
  | buy
  | sell
deriving DecidableEq

/-- One slot's local order-cache entry, the dict
`{"status": ..., "price": ..., "direction": ...}` written by the
reconciler (authoritative exchange notifications can store richer dicts;
only these three keys are ever read by the reconciler). -/
structure OrderEntry where
  status : String
  price : ℚ
  direction : Direction
deriving DecidableEq

/-- An exchange request issued by the reconciler. -/
inductive ExchangeAction where
  | amendCall (amount price : ℚ) (client_order_id : String)
  | insertCall (amount price : ℚ) (client_order_id : String) (label : String)
deriving DecidableEq

/-- Outcome of an awaited exchange call: it returns, or it raises an
exception whose text is `msg`. -/
inductive CallOutcome where
  | ok
  | raised (msg : String)
deriving DecidableEq

/-- The observable effect of one `adjust_order` call: the successive
assignments to `self.quotes[client_order_id]` in order, the exchange
calls issued, and whether an exception escaped the method. -/
structure AdjustResult where
  writes : List OrderEntry
  actions : List ExchangeAction
  raised : Bool
deriving DecidableEq

/-- The cache entry for the slot after an `AdjustResult` is applied to a
slot whose entry was `orig`. -/
def finalEntry (orig : Option OrderEntry) (r : AdjustResult) : Option OrderEntry :=
  match r.writes.getLast? with
  | some e => some e
  | none => orig

/-- `Quoter._insert_new_order` (lines 408-424): issue one insert; on
success write `status="open"` to the slot's cache entry; on failure log
and swallow the exception. -/
def insert_new_order (side : Direction) (price amount : ℚ)
    (client_order_id : String) (insertRes : CallOutcome) : AdjustResult :=
  match insertRes with
  | .ok =>
      { writes := [⟨"open", price, side⟩]
        actions := [.insertCall amount price client_order_id cfg.order_label]
        raised := false }
  | .raised _ =>
      { writes := []
        actions := [.insertCall amount price client_order_id cfg.order_label]
        raised := false }

/-- Line 366-367: the cached status string and the `is_open` test. -/
def entryStatus (entry : Option OrderEntry) : String :=
  (entry.map OrderEntry.status).getD ""

/-- `status in ["open", "partially_filled"]`. -/
def isOpenStatus (st : String) : Bool :=
  st == "open" || st == "partially_filled"

/-- `Quoter.adjust_order` (lines 364-406) on one slot: `entry` is
`self.quotes.get(client_order_id)`; `amendRes` / `insertRes` are the
outcomes of the exchange calls the method may issue. -/
def adjust_order (entry : Option OrderEntry) (side : Direction)
    (price amount : ℚ) (client_order_id : String)
    (amendRes insertRes : CallOutcome) : AdjustResult :=
  let status := entryStatus entry
  if isOpenStatus status then
    if amount = 0 ∨ |(entry.map OrderEntry.price).getD 0 - price| > cfg.amend_threshold then
      match amendRes with
      | .ok =>
          { writes := []
            actions := [.amendCall amount price client_order_id]
            raised := false }
      | .raised msg =>
          if strContains (lowerStr msg) "order not found" then
            let fallback :=
              if amount > 0 then insert_new_order side price amount client_order_id insertRes
              else { writes := [], actions := [], raised := false }
            { writes := ⟨"unknown", price, side⟩ :: fallback.writes
              actions := .amendCall amount price client_order_id :: fallback.actions
              raised := false }
          else
            { writes := []
              actions := [.amendCall amount price client_order_id]
              raised := false }
    else
      { writes := [], actions := [], raised := false }
  else if amount > 0 then
    insert_new_order side price amount client_order_id insertRes
  else
    { writes := [], actions := [], raised := false }

/-- Number of insert requests in an action list. -/
def insertCount : List ExchangeAction → Nat
  | [] => 0
  | .insertCall _ _ _ _ :: rest => 1 + insertCount rest
  | .amendCall _ _ _ :: rest => insertCount rest

/-! ### `notification_handler.py` -/

/-- The named handler branches of `NotificationHandler.handle_notification`
(lines 38-51). -/
inductive NotifBranch where
  | orders
  | portfolio
  | trades
  | accountSummary
  | ticker
deriving DecidableEq

/-- The channel dispatch of `handle_notification`: which branch, if any,
handles a notification on `channel`. -/
def handle_notification_route (channel : String) : Option NotifBranch :=
  if channel == "session.orders" then some .orders
  else if channel == "account.portfolio" then some .portfolio
  else if channel == "trades" then some .trades
  else if channel == "account.summary" then some .accountSummary
  else if channel == "ticker" then some .ticker
  else none

/-- One entry of a `trades` notification's `trades` list (the two fields
`_handle_trades_update` reads). -/
structure TradeInfo where
  instrument : String
  label : String
deriving DecidableEq

/-- Line 107: does a trade match the configured instrument and the
strategy's own order label? -/
def tradeMatches (t : TradeInfo) : Bool :=
  t.instrument == cfg.instrument && t.label == cfg.order_label

/-- The loop of `_handle_trades_update` (lines 106-110): number of calls
to the `on_trade_update` callback — the loop breaks after the first
matching trade. -/
def trades_update_calls : List TradeInfo → Nat
  | [] => 0
  | t :: rest => if tradeMatches t then 1 else trades_update_calls rest

/-- `Quoter._on_trade_update` (lines 151-154): number of
`update_quotes` tasks spawned per callback call — one when `self.mid`
is known, none otherwise. -/
def on_trade_update_tasks (mid : Option ℚ) : Nat :=
  if mid.isSome then 1 else 0

/-- Quote recomputations triggered by one trades notification: callback
calls from the trades loop times tasks spawned per callback. -/
def handle_trades_update_recomputations (mid : Option ℚ)
    (trades : List TradeInfo) : Nat :=
  trades_update_calls trades * on_trade_update_tasks mid

/-! ### `Quoter.__init__` → `NotificationHandler.__init__` wiring -/

/-- The keyword parameters accepted by `NotificationHandler.__init__`
(`notification_handler.py` lines 12-17). -/
def notificationHandlerInitParams : List String :=
  ["logger", "instrument_name", "on_order_update", "on_position_update",
   "on_trade_update", "on_pnl_update", "on_ticker_update"]

/-- The keyword arguments `Quoter.__init__` passes to
`NotificationHandler(...)` (`not_so_simple_quoter.py` lines 48-57); they
are fixed in the source, independent of `Quoter.__init__`'s own
arguments. -/
def quoterNotificationHandlerKwargs : List String :=
  ["logger", "instrument_name", "on_order_update", "on_position_update",
   "on_trade_update", "on_pnl_update", "on_ticker_update", "on_exchange_error"]

/-- Python call semantics: a call raises `TypeError` when it passes a
keyword argument the callee does not accept. -/
def unexpectedKeywordError (passed accepted : List String) : Bool :=
  passed.any (fun k => !(accepted.contains k))

/-! ### Helper lemmas -/

theorem round_to_tick_intCast (n : ℤ) : round_to_tick ((n : ℤ) : ℚ) = (n : ℚ) := by
  rw [round_to_tick_eq, roundHalfEven_intCast]

/-- The clamped bid never meets or exceeds a known best bid. -/
theorem guard_bid_lt (p bb : ℚ) : guard_bid p (some bb) < bb := by
  have hg : guard_bid p (some bb) =
      if p ≥ bb then round_to_tick (bb - cfg.price_tick) else p := rfl
  rw [hg]
  split_ifs with h
  · have h2 : cfg.price_tick = 1 := rfl
    rw [h2]
    have h1 := round_to_tick_lt (bb - 1)
    linarith
  · linarith [not_le.mp h]

/-- The clamped ask never meets or falls below a known best ask. -/
theorem guard_ask_gt (p ba : ℚ) : ba < guard_ask p (some ba) := by
  have hg : guard_ask p (some ba) =
      if p ≤ ba then round_to_tick (ba + cfg.price_tick) else p := rfl
  rw [hg]
  split_ifs with h
  · have h2 : cfg.price_tick = 1 := rfl
    rw [h2]
    have h1 := round_to_tick_gt (ba + 1)
    linarith
  · linarith [not_le.mp h]

/-- Inversion for `update_quotes`: a produced result is the
`compute_quotes` of the position and the four flags. -/
theorem update_quotes_eq_some (position vol bc ac br ar : Option ℚ)
    (t mid : ℚ) (bestBid bestAsk : Option ℚ) (qc : QuoteComputation)
    (h : update_quotes position vol bc ac br ar t mid bestBid bestAsk = some qc) :
    ∃ P, position = some P ∧
      qc = compute_quotes P vol (inCooldownFlag bc t) (inCooldownFlag ac t)
        (inRecoveryFlag br t (inCooldownFlag bc t))
        (inRecoveryFlag ar t (inCooldownFlag ac t)) mid bestBid bestAsk := by
  cases position with
  | none => simp [update_quotes] at h
  | some P =>
    refine ⟨P, rfl, ?_⟩
    simp only [update_quotes] at h
    split at h
    · exact absurd h (by simp)
    · exact (Option.some_injective _ h).symm

/-! ### Claim theorems -/

/-- Claim C1: `Quoter.__init__` passes the keyword argument
`on_exchange_error` to `NotificationHandler(...)`, but
`NotificationHandler.__init__` does not accept it, so constructing a
`Quoter` always raises `TypeError` before any quoting can run. -/
theorem quoter_construction_raises_type_error :
    unexpectedKeywordError quoterNotificationHandlerKwargs
      notificationHandlerInitParams = true ∧
    "on_exchange_error" ∈ quoterNotificationHandlerKwargs ∧
    "on_exchange_error" ∉ notificationHandlerInitParams := by
  refine ⟨by decide, by decide, by decide⟩

/-- Claim C2 (code bug): an exchange error payload is forwarded by
`WebSocketHandler.process_message` as a notification on channel
`"error"`, but `NotificationHandler.handle_notification` has no branch
for that channel (and its `__init__` does not even accept the
`on_exchange_error` callback), so the desync-recovery path of
`_on_exchange_error` is unreachable from the message pipeline. -/
theorem error_channel_is_dropped :
    handle_notification_route "error" = none ∧
    notificationHandlerInitParams.contains "on_exchange_error" = false := by
  refine ⟨by decide, by decide⟩

/-- Claim C10: rounding a price to the tick is idempotent:
`round_to_tick (round_to_tick x) = round_to_tick x` for every input. -/
theorem round_to_tick_idempotent (x : ℚ) :
    round_to_tick (round_to_tick x) = round_to_tick x := by
  rw [round_to_tick_eq x, round_to_tick_intCast]

/-- Claim C8: whenever `update_quotes` produces quotes and a best bid is
known, the produced bid price is strictly below it; symmetrically the
produced ask price is strictly above a known best ask (a crossing price
is clamped one tick outside the reference and re-rounded). -/
theorem update_quotes_never_crosses (position vol bc ac br ar : Option ℚ)
    (t mid : ℚ) (bestBid bestAsk : Option ℚ) (qc : QuoteComputation)
    (h : update_quotes position vol bc ac br ar t mid bestBid bestAsk = some qc) :
    (∀ bb, bestBid = some bb → qc.bid_price < bb) ∧
    (∀ ba, bestAsk = some ba → ba < qc.ask_price) := by
  obtain ⟨P, -, rfl⟩ := update_quotes_eq_some position vol bc ac br ar t mid bestBid bestAsk qc h
  constructor
  · rintro bb rfl
    simpa [compute_quotes] using guard_bid_lt _ bb
  · rintro ba rfl
    simpa [compute_quotes] using guard_ask_gt _ ba

/-- Witness for C8 at a concrete call: position 0, no volatility, no
cooldowns, mid 30000, best bid 29999 and best ask 30001 known. -/
theorem update_quotes_never_crosses_witness :
    (compute_quotes 0 none false false false false 30000 (some 29999)
        (some 30001)).bid_price < 29999 ∧
    30001 < (compute_quotes 0 none false false false false 30000 (some 29999)
        (some 30001)).ask_price := by
  have h : update_quotes (some 0) none none none none none 0 30000
      (some 29999) (some 30001) =
      some (compute_quotes 0 none false false false false 30000 (some 29999)
        (some 30001)) := by
    simp [update_quotes, inCooldownFlag, inRecoveryFlag]
  have hmain := update_quotes_never_crosses (some 0) none none none none none
    0 30000 (some 29999) (some 30001) _ h
  exact ⟨hmain.1 29999 rfl, hmain.2 30001 rfl⟩

/-- Phase classification from the two thresholds, for thresholds with
`cooldown_until ≤ recovery_until` (which every fill establishes). -/
theorem sidePhase_spec (c r now : ℚ) (hcr : c ≤ r) :
    (sidePhase (some c) (some r) now = .cooldown ↔ now < c) ∧
    (sidePhase (some c) (some r) now = .recovery ↔ c ≤ now ∧ now < r) ∧
    (sidePhase (some c) (some r) now = .normal ↔ r ≤ now) := by
  unfold sidePhase inCooldownFlag inRecoveryFlag
  by_cases h1 : now < c <;> by_cases h2 : now < r <;> simp [h1, h2]
  all_goals linarith

/-- Claim C9: a fill at time `t` on the bid side overwrites that side's
thresholds to `cooldown_until = t + 5` and `recovery_until = t + 35`
(cooldown 5s plus recovery 30s), whatever thresholds earlier fills had
set; at a later time `now` the side is in Cooldown iff
`now < cooldown_until`, in Recovery iff
`cooldown_until ≤ now < recovery_until` and Normal iff
`now ≥ recovery_until`; concretely a bid fill at `t = 100` yields
thresholds 105 and 135 with phase Cooldown at 104, Recovery at 120 and
Normal at 140, and a side in recovery has its spread multiplied by
`recovery_spread_multiplier`. -/
theorem bid_fill_cooldown_recovery_machine (s : CooldownState) (t : ℚ) :
    (on_order_update_fill s cfg.bid_quote_id "filled" t).bid_cooldown_until
        = some (t + 5) ∧
    (on_order_update_fill s cfg.bid_quote_id "filled" t).bid_recovery_until
        = some (t + 35) ∧
    (∀ c r now : ℚ, c ≤ r →
      (sidePhase (some c) (some r) now = .cooldown ↔ now < c) ∧
      (sidePhase (some c) (some r) now = .recovery ↔ c ≤ now ∧ now < r) ∧
      (sidePhase (some c) (some r) now = .normal ↔ r ≤ now)) ∧
    (sidePhase (some 105) (some 135) 104 = .cooldown ∧
     sidePhase (some 105) (some 135) 120 = .recovery ∧
     sidePhase (some 105) (some 135) 140 = .normal) ∧
    (∀ sp : ℚ, apply_recovery sp true = sp * cfg.recovery_spread_multiplier) := by
  refine ⟨?_, ?_, fun c r now hcr => sidePhase_spec c r now hcr, ⟨?_, ?_, ?_⟩, fun sp => rfl⟩
  · simp [on_order_update_fill, cfg]
  · simp [on_order_update_fill, cfg]
    ring
  · exact (sidePhase_spec 105 135 104 (by norm_num)).1.mpr (by norm_num)
  · exact (sidePhase_spec 105 135 120 (by norm_num)).2.1.mpr ⟨by norm_num, by norm_num⟩
  · exact (sidePhase_spec 105 135 140 (by norm_num)).2.2.mpr (by norm_num)

/-- Witness for C9 at the concrete fill of the claim: fill time 100 on
the bid quote id over the initial state. -/
theorem bid_fill_cooldown_recovery_machine_witness :
    (on_order_update_fill initialCooldownState cfg.bid_quote_id "filled"
        100).bid_cooldown_until = some 105 ∧
    (on_order_update_fill initialCooldownState cfg.bid_quote_id "filled"
        100).bid_recovery_until = some 135 ∧
    sidePhase (some 105) (some 135) 120 = .recovery := by
  have h := bid_fill_cooldown_recovery_machine initialCooldownState 100
  refine ⟨?_, ?_, h.2.2.2.1.2.1⟩
  · rw [h.1]; norm_num
  · rw [h.2.1]; norm_num

/-- The break-on-first-match loop calls the trade callback once iff some
trade matches, regardless of how many do. -/
theorem trades_update_calls_eq (ts : List TradeInfo) :
    trades_update_calls ts = if ts.any tradeMatches then 1 else 0 := by
  induction ts with
  | nil => rfl
  | cons t rest ih =>
      by_cases h : tradeMatches t <;> simp [trades_update_calls, h, ih]

/-- Claim C5 counterexample: a trades notification whose single trade
matches the configured instrument and label triggers zero quote
recomputations when no mid price is known yet (`self.mid is None` in
`_on_trade_update`), not exactly one. -/
theorem matching_trade_no_recomputation_without_mid :
    tradeMatches ⟨"BTC-PERPETUAL", "simple_quoter"⟩ = true ∧
    handle_trades_update_recomputations none
      [⟨"BTC-PERPETUAL", "simple_quoter"⟩] = 0 ∧
    (0 : Nat) ≠ 1 := by
  refine ⟨by decide, by decide, by decide⟩

/-- Claim C5 as amended: a trades notification with at least one trade
matching the configured instrument and own order label triggers exactly
one quote recomputation provided a mid price is known, even when several
trades match; with no matching trade, or with no known mid price, it
triggers none. -/
theorem trades_update_recomputation_count (m : ℚ) (ts : List TradeInfo) :
    (ts.any tradeMatches = true →
      handle_trades_update_recomputations (some m) ts = 1) ∧
    (ts.any tradeMatches = false →
      ∀ mid, handle_trades_update_recomputations mid ts = 0) ∧
    handle_trades_update_recomputations none ts = 0 := by
  refine ⟨?_, ?_, ?_⟩
  · intro h
    simp [handle_trades_update_recomputations, trades_update_calls_eq, h,
      on_trade_update_tasks]
  · intro h mid
    simp [handle_trades_update_recomputations, trades_update_calls_eq, h]
  · simp [handle_trades_update_recomputations, on_trade_update_tasks]

/-- Witness for the amended C5: two matching trades in one notification
still trigger exactly one recomputation when a mid price is known. -/
theorem trades_update_recomputation_count_witness :
    handle_trades_update_recomputations (some 30000)
      [⟨"BTC-PERPETUAL", "simple_quoter"⟩,
       ⟨"BTC-PERPETUAL", "simple_quoter"⟩] = 1 := by
  exact (trades_update_recomputation_count 30000
    [⟨"BTC-PERPETUAL", "simple_quoter"⟩,
     ⟨"BTC-PERPETUAL", "simple_quoter"⟩]).1 (by decide)

/-- Size behaviour of lines 329-339: hard zero on an over-exposed side;
inside the limits each size is capped at the remaining head-room before
size-tick rounding, so the rounded size can overshoot the cap by at most
half a size tick. -/
theorem quote_sizes_spec (P adj : ℚ) :
    (P ≥ cfg.max_position → (quote_sizes P adj).1 = 0) ∧
    (P ≤ -cfg.max_position → (quote_sizes P adj).2 = 0) ∧
    (-cfg.max_position < P → P < cfg.max_position →
      P + (quote_sizes P adj).1 ≤ cfg.max_position + cfg.size_tick / 2 ∧
      -(cfg.max_position + cfg.size_tick / 2) ≤ P - (quote_sizes P adj).2) := by
  have hmp : cfg.max_position = 3/10 := rfl
  have hst : cfg.size_tick = 1/1000 := rfl
  unfold quote_sizes
  split_ifs with h1 h2
  · refine ⟨fun _ => rfl, fun hle => ?_, fun hlt1 hlt2 => absurd h1 (not_le.mpr hlt2)⟩
    rw [hmp] at h1 hle
    linarith
  · exact ⟨fun hge => absurd hge h1, fun _ => rfl,
      fun hlt1 hlt2 => absurd h2 (not_le.mpr hlt1)⟩
  · refine ⟨fun hge => absurd hge h1, fun hle => absurd hle h2,
      fun hlt1 hlt2 => ⟨?_, ?_⟩⟩
    · have hcap : max (min adj (cfg.max_position - P)) 0 ≤ cfg.max_position - P := by
        apply max_le (min_le_right _ _)
        rw [hmp]
        rw [hmp] at hlt2
        linarith
      have hr := round_size_le (max (min adj (cfg.max_position - P)) 0)
      rw [hmp] at hcap hr ⊢
      rw [hst]
      linarith
    · have hcap : max (min adj (cfg.max_position + P)) 0 ≤ cfg.max_position + P := by
        apply max_le (min_le_right _ _)
        rw [hmp]
        rw [hmp] at hlt1
        linarith
      have hr := round_size_le (max (min adj (cfg.max_position + P)) 0)
      rw [hmp] at hcap hr ⊢
      rw [hst]
      linarith

/-- Claim C6 counterexample: at position `0.29849` (inside the limits),
with unknown volatility, the bid head-room is `0.00151`; size-tick
rounding lifts the capped size to `0.002`, so `position + bid_size =
0.30049` exceeds `max_position = 0.3` — the "never exceeds" part of the
claim is false. -/
theorem position_cap_exceeded_by_rounding :
    (update_quotes (some (29849/100000)) none none none none none 0 30000
        none none).map QuoteComputation.bid_size = some (1/500) ∧
    -cfg.max_position < (29849/100000 : ℚ) ∧
    (29849/100000 : ℚ) < cfg.max_position ∧
    cfg.max_position < (29849/100000 : ℚ) + 1/500 := by
  have hq : update_quotes (some (29849/100000)) none none none none none 0
      30000 none none = some (compute_quotes (29849/100000) none false false
      false false 30000 none none) := by
    simp [update_quotes, inCooldownFlag, inRecoveryFlag]
  have hadj : cfg.size * size_scale none = 1/100 := by
    norm_num [size_scale, cfg]
  have hmin : min (1/100 : ℚ) (cfg.max_position - 29849/100000) = 151/100000 := by
    rw [show cfg.max_position = 3/10 from rfl]
    rw [show (3/10 : ℚ) - 29849/100000 = 151/100000 by norm_num]
    exact min_eq_right (by norm_num)
  have hmax : max (151/100000 : ℚ) 0 = 151/100000 := max_eq_left (by norm_num)
  have hrs : round_size (151/100000) = 1/500 := by
    unfold round_size
    rw [show cfg.size_tick = 1/1000 from rfl]
    rw [show (151/100000 : ℚ) / (1/1000) = 151/100 by norm_num]
    rw [roundHalfEven_eq_ceil (151/100) 1 (by norm_num) (by norm_num)]
    norm_num
  have hsz : (quote_sizes (29849/100000) (1/100)).1 = 1/500 := by
    unfold quote_sizes
    rw [if_neg (by rw [show cfg.max_position = 3/10 from rfl]; norm_num),
        if_neg (by rw [show cfg.max_position = 3/10 from rfl]; norm_num)]
    show round_size (max (min (1/100 : ℚ)
      (cfg.max_position - 29849/100000)) 0) = 1/500
    rw [hmin, hmax, hrs]
  refine ⟨?_, by rw [show cfg.max_position = 3/10 from rfl]; norm_num,
    by rw [show cfg.max_position = 3/10 from rfl]; norm_num,
    by rw [show cfg.max_position = 3/10 from rfl]; norm_num⟩
  rw [hq]
  show some ((compute_quotes (29849/100000) none false false false false
    30000 none none).bid_size) = some (1/500)
  rw [show (compute_quotes (29849/100000) none false false false false 30000
    none none).bid_size = (quote_sizes (29849/100000)
    (cfg.size * size_scale none)).1 from rfl, hadj, hsz]

/-- Claim C6 as amended: whenever `update_quotes` produces quotes at
position `P`, the bid size is exactly 0 when `P ≥ max_position` and the
ask size is exactly 0 when `P ≤ -max_position`; strictly inside the
limits each side's size is capped at its remaining head-room before
size-tick rounding, so `position + bid_size` (resp.
`position - ask_size`) can exceed `max_position` (resp. fall below
`-max_position`) by at most half a size tick. -/
theorem quote_size_position_cap (position vol bc ac br ar : Option ℚ)
    (t mid : ℚ) (bb ba : Option ℚ) (P : ℚ) (qc : QuoteComputation)
    (hpos : position = some P)
    (h : update_quotes position vol bc ac br ar t mid bb ba = some qc) :
    (P ≥ cfg.max_position → qc.bid_size = 0) ∧
    (P ≤ -cfg.max_position → qc.ask_size = 0) ∧
    (-cfg.max_position < P → P < cfg.max_position →
      P + qc.bid_size ≤ cfg.max_position + cfg.size_tick / 2 ∧
      -(cfg.max_position + cfg.size_tick / 2) ≤ P - qc.ask_size) := by
  obtain ⟨P', hP', rfl⟩ := update_quotes_eq_some position vol bc ac br ar
    t mid bb ba qc h
  rw [hpos] at hP'
  obtain rfl : P = P' := by injection hP'
  have hb : (compute_quotes P vol (inCooldownFlag bc t) (inCooldownFlag ac t)
      (inRecoveryFlag br t (inCooldownFlag bc t))
      (inRecoveryFlag ar t (inCooldownFlag ac t)) mid bb ba).bid_size =
      (quote_sizes P (cfg.size * size_scale vol)).1 := rfl
  have ha : (compute_quotes P vol (inCooldownFlag bc t) (inCooldownFlag ac t)
      (inRecoveryFlag br t (inCooldownFlag bc t))
      (inRecoveryFlag ar t (inCooldownFlag ac t)) mid bb ba).ask_size =
      (quote_sizes P (cfg.size * size_scale vol)).2 := rfl
  rw [hb, ha]
  exact quote_sizes_spec P (cfg.size * size_scale vol)

/-- Witness for the amended C6: position 1 (beyond the limit) quotes a
zero bid size; position 0 keeps `position + bid_size` within the limit
plus half a size tick. -/
theorem quote_size_position_cap_witness :
    (compute_quotes 1 none false false false false 30000 none none).bid_size
      = 0 ∧
    (0 : ℚ) + (compute_quotes 0 none false false false false 30000 none
      none).bid_size ≤ cfg.max_position + cfg.size_tick / 2 := by
  have h1 : update_quotes (some 1) none none none none none 0 30000 none none
      = some (compute_quotes 1 none false false false false 30000 none none) := by
    simp [update_quotes, inCooldownFlag, inRecoveryFlag]
  have h0 : update_quotes (some 0) none none none none none 0 30000 none none
      = some (compute_quotes 0 none false false false false 30000 none none) := by
    simp [update_quotes, inCooldownFlag, inRecoveryFlag]
  constructor
  · exact (quote_size_position_cap (some 1) none none none none none 0 30000
      none none 1 _ rfl h1).1
      (by rw [show cfg.max_position = 3/10 from rfl]; norm_num)
  · exact ((quote_size_position_cap (some 0) none none none none none 0 30000
      none none 0 _ rfl h0).2.2
      (by rw [show cfg.max_position = 3/10 from rfl]; norm_num)
      (by rw [show cfg.max_position = 3/10 from rfl]; norm_num)).1

/-- Evaluation of the quote prices at the C3 scenario: mid 30000,
volatility 0.5, position 0, no cooldown/recovery, no best bid/ask. -/
theorem eval_quotes_mid30000 :
    update_quotes (some 0) (some (1/2)) none none none none 0 30000 none none
      = some (compute_quotes 0 (some (1/2)) false false false false 30000
        none none) ∧
    (compute_quotes 0 (some (1/2)) false false false false 30000 none
      none).bid_price = 29997 ∧
    (compute_quotes 0 (some (1/2)) false false false false 30000 none
      none).ask_price = 30003 := by
  have hbase : base_spread (some (1/2)) = 1 := by
    show cfg.min_spread_bps +
      (cfg.max_spread_bps - cfg.min_spread_bps) * (1/2) * cfg.volatility_multiplier = 1
    norm_num [cfg]
  have hbsr : bid_spread_raw 0 (some (1/2)) = 1 := by
    unfold bid_spread_raw
    rw [if_neg (lt_irrefl 0), hbase]
  have hasr : ask_spread_raw 0 (some (1/2)) = 1 := by
    unfold ask_spread_raw
    rw [if_neg (lt_irrefl 0), hbase]
  refine ⟨by simp [update_quotes, inCooldownFlag, inRecoveryFlag], ?_, ?_⟩
  · show guard_bid (raw_bid_price 30000
      (apply_recovery (bid_spread_raw 0 (some (1/2))) false)) none = 29997
    rw [show apply_recovery (bid_spread_raw 0 (some (1/2))) false =
      bid_spread_raw 0 (some (1/2)) from rfl, hbsr]
    show raw_bid_price 30000 1 = 29997
    unfold raw_bid_price
    rw [show (30000 : ℚ) - 1 / 10000 * 30000 = ((29997 : ℤ) : ℚ) by norm_num,
      round_to_tick_intCast]
    norm_num
  · show guard_ask (raw_ask_price 30000
      (apply_recovery (ask_spread_raw 0 (some (1/2))) false)) none = 30003
    rw [show apply_recovery (ask_spread_raw 0 (some (1/2))) false =
      ask_spread_raw 0 (some (1/2)) from rfl, hasr]
    show raw_ask_price 30000 1 = 30003
    unfold raw_ask_price
    rw [show (30000 : ℚ) + 1 / 10000 * 30000 = ((30003 : ℤ) : ℚ) by norm_num,
      round_to_tick_intCast]
    norm_num

/-- Claim C3 counterexample: in the claim's scenario the produced bid is
29997, which is 3.0 below mid — not 29998 or 29999 (1.5 below mid): the
code applies the full spread value as the offset on each side, not half
of it. -/
theorem quote_offset_counterexample :
    (update_quotes (some 0) (some (1/2)) none none none none 0 30000 none
      none).map QuoteComputation.bid_price = some 29997 ∧
    ¬ ((29997 : ℚ) = 29998 ∨ (29997 : ℚ) = 29999) := by
  constructor
  · rw [eval_quotes_mid30000.1]
    show some ((compute_quotes 0 (some (1/2)) false false false false 30000
      none none).bid_price) = some 29997
    rw [eval_quotes_mid30000.2.1]
  · push_neg
    norm_num

/-- Claim C3 as amended: with mid 30000, volatility 0.5, position 0, no
cooldown/recovery and no known best bid/ask, the base spread is
`0.5 + (2.5-0.5)·0.5·0.5 = 1.0` bps and the full spread (3.0 price
units) is applied as the offset on each side: bid 29997 and ask 30003
after rounding to `price_tick = 1.0`. -/
theorem quote_offset_full_spread :
    base_spread (some (1/2)) = 1 ∧
    (update_quotes (some 0) (some (1/2)) none none none none 0 30000 none
      none).map QuoteComputation.bid_price = some 29997 ∧
    (update_quotes (some 0) (some (1/2)) none none none none 0 30000 none
      none).map QuoteComputation.ask_price = some 30003 ∧
    (30000 : ℚ) - 29997 = 3 ∧ (30003 : ℚ) - 30000 = 3 := by
  refine ⟨?_, ?_, ?_, by norm_num, by norm_num⟩
  · show cfg.min_spread_bps +
      (cfg.max_spread_bps - cfg.min_spread_bps) * (1/2) * cfg.volatility_multiplier = 1
    norm_num [cfg]
  · rw [eval_quotes_mid30000.1]
    show some ((compute_quotes 0 (some (1/2)) false false false false 30000
      none none).bid_price) = some 29997
    rw [eval_quotes_mid30000.2.1]
  · rw [eval_quotes_mid30000.1]
    show some ((compute_quotes 0 (some (1/2)) false false false false 30000
      none none).ask_price) = some 30003
    rw [eval_quotes_mid30000.2.2]

/-- Claim C4 counterexample: an accepted amend (the call returns) on a
slot cached as `partially_filled` performs no cache write at all: the
entry keeps status `partially_filled`, not `open`. -/
theorem accepted_amend_does_not_set_open :
    (adjust_order (some ⟨"partially_filled", 30000, Direction.buy⟩)
      Direction.buy 29990 (1/100) "1001" CallOutcome.ok CallOutcome.ok).raised
      = false ∧
    (adjust_order (some ⟨"partially_filled", 30000, Direction.buy⟩)
      Direction.buy 29990 (1/100) "1001" CallOutcome.ok CallOutcome.ok).actions
      = [ExchangeAction.amendCall (1/100) 29990 "1001"] ∧
    finalEntry (some ⟨"partially_filled", 30000, Direction.buy⟩)
      (adjust_order (some ⟨"partially_filled", 30000, Direction.buy⟩)
        Direction.buy 29990 (1/100) "1001" CallOutcome.ok CallOutcome.ok)
      = some ⟨"partially_filled", 30000, Direction.buy⟩ ∧
    "partially_filled" ≠ "open" := by
  have hcond : (1/100 : ℚ) = 0 ∨
      |((some (⟨"partially_filled", 30000, Direction.buy⟩ : OrderEntry)).map
        OrderEntry.price).getD 0 - 29990| > cfg.amend_threshold :=
    Or.inr (show |(30000 : ℚ) - 29990| > cfg.amend_threshold by
      rw [show cfg.amend_threshold = 5 from rfl]; norm_num)
  have h : adjust_order (some ⟨"partially_filled", 30000, Direction.buy⟩)
      Direction.buy 29990 (1/100) "1001" CallOutcome.ok CallOutcome.ok =
      { writes := [], actions := [ExchangeAction.amendCall (1/100) 29990 "1001"],
        raised := false } := by
    unfold adjust_order
    rw [if_pos (show isOpenStatus (entryStatus (some
      ⟨"partially_filled", 30000, Direction.buy⟩)) = true from rfl)]
    rw [if_pos hcond]
  rw [h]
  exact ⟨rfl, rfl, rfl, by decide⟩

/-- Claim C4 as amended: an accepted insert immediately and
optimistically writes `status="open"` to the slot's cache entry; an
accepted amend performs no cache write, leaving the entry exactly as it
was — since an amend is only attempted on an entry whose status is
already `open` or `partially_filled`, the next cycle still sees the slot
as open, but the entry is not rewritten to `open`. -/
theorem optimistic_cache_on_insert_and_amend (entry : Option OrderEntry)
    (side : Direction) (price amount : ℚ) (cid : String)
    (amendRes insertRes : CallOutcome) :
    (isOpenStatus (entryStatus entry) = false → 0 < amount →
      finalEntry entry (adjust_order entry side price amount cid amendRes
        CallOutcome.ok) = some ⟨"open", price, side⟩) ∧
    (isOpenStatus (entryStatus entry) = true →
      (amount = 0 ∨ |(entry.map OrderEntry.price).getD 0 - price| >
        cfg.amend_threshold) →
      (adjust_order entry side price amount cid CallOutcome.ok
        insertRes).writes = [] ∧
      finalEntry entry (adjust_order entry side price amount cid
        CallOutcome.ok insertRes) = entry ∧
      isOpenStatus (entryStatus (finalEntry entry (adjust_order entry side
        price amount cid CallOutcome.ok insertRes))) = true) := by
  constructor
  · intro hno hamt
    unfold adjust_order
    rw [if_neg (by rw [hno]; exact Bool.false_ne_true)]
    rw [if_pos hamt]
    rfl
  · intro hopen hcond
    unfold adjust_order
    rw [if_pos hopen, if_pos hcond]
    exact ⟨rfl, rfl, by show isOpenStatus (entryStatus entry) = true; exact hopen⟩

/-- Witness for the amended C4: an accepted insert on an empty slot
writes an `open` entry; an accepted amend on an `open` slot leaves the
cache entry untouched. -/
theorem optimistic_cache_on_insert_and_amend_witness :
    finalEntry none (adjust_order none Direction.buy 29990 (1/100) "1001"
      CallOutcome.ok CallOutcome.ok) = some ⟨"open", 29990, Direction.buy⟩ ∧
    (adjust_order (some ⟨"open", 30000, Direction.buy⟩) Direction.buy 29990
      (1/100) "1001" CallOutcome.ok CallOutcome.ok).writes = [] ∧
    finalEntry (some ⟨"open", 30000, Direction.buy⟩)
      (adjust_order (some ⟨"open", 30000, Direction.buy⟩) Direction.buy 29990
        (1/100) "1001" CallOutcome.ok CallOutcome.ok)
      = some ⟨"open", 30000, Direction.buy⟩ := by
  have h1 := (optimistic_cache_on_insert_and_amend none Direction.buy 29990
    (1/100) "1001" CallOutcome.ok CallOutcome.ok).1 (by decide) (by norm_num)
  have h2 := (optimistic_cache_on_insert_and_amend
    (some ⟨"open", 30000, Direction.buy⟩) Direction.buy 29990 (1/100) "1001"
    CallOutcome.ok CallOutcome.ok).2 (by decide)
    (Or.inr (show |(30000 : ℚ) - 29990| > cfg.amend_threshold by
      rw [show cfg.amend_threshold = 5 from rfl]; norm_num))
  exact ⟨h1, h2.1, h2.2.1⟩

/-- Claim C7: an amend raising an exception whose text contains
"order not found" is swallowed by the reconciler; the first thing
written to the slot's cache is a `status="unknown"` entry, and exactly
one insert follows iff the desired amount is positive. -/
theorem amend_not_found_recovery (entry : Option OrderEntry) (e : OrderEntry)
    (side : Direction) (price amount : ℚ) (cid msg : String)
    (insertRes : CallOutcome)
    (he : entry = some e) (hopen : isOpenStatus e.status = true)
    (hcond : amount = 0 ∨ |e.price - price| > cfg.amend_threshold)
    (hmsg : strContains (lowerStr msg) "order not found" = true) :
    (adjust_order entry side price amount cid (CallOutcome.raised msg)
      insertRes).raised = false ∧
    (adjust_order entry side price amount cid (CallOutcome.raised msg)
      insertRes).writes.head? = some ⟨"unknown", price, side⟩ ∧
    insertCount (adjust_order entry side price amount cid
      (CallOutcome.raised msg) insertRes).actions =
      (if 0 < amount then 1 else 0) := by
  subst he
  unfold adjust_order
  rw [if_pos (show isOpenStatus (entryStatus (some e)) = true from hopen)]
  rw [if_pos (show amount = 0 ∨
    |((some e).map OrderEntry.price).getD 0 - price| > cfg.amend_threshold
    from hcond)]
  simp only [hmsg, if_pos rfl]
  refine ⟨rfl, rfl, ?_⟩
  by_cases hamt : 0 < amount
  · rw [if_pos hamt, if_pos hamt]
    show insertCount (ExchangeAction.amendCall amount price cid ::
      (insert_new_order side price amount cid insertRes).actions) = 1
    cases insertRes <;> rfl
  · rw [if_neg hamt, if_neg hamt]
    rfl

/-- Witness for C7: an amend on an open slot failing with
"Order Not Found" is recovered with an `unknown` cache write and exactly
one fallback insert. -/
theorem amend_not_found_recovery_witness :
    (adjust_order (some ⟨"open", 30000, Direction.buy⟩) Direction.buy 29990
      (1/100) "1001" (CallOutcome.raised "Thalex error: Order Not Found")
      CallOutcome.ok).raised = false ∧
    (adjust_order (some ⟨"open", 30000, Direction.buy⟩) Direction.buy 29990
      (1/100) "1001" (CallOutcome.raised "Thalex error: Order Not Found")
      CallOutcome.ok).writes.head? = some ⟨"unknown", 29990, Direction.buy⟩ ∧
    insertCount (adjust_order (some ⟨"open", 30000, Direction.buy⟩)
      Direction.buy 29990 (1/100) "1001"
      (CallOutcome.raised "Thalex error: Order Not Found")
      CallOutcome.ok).actions = 1 := by
  have h := amend_not_found_recovery (some ⟨"open", 30000, Direction.buy⟩)
    ⟨"open", 30000, Direction.buy⟩ Direction.buy 29990 (1/100) "1001"
    "Thalex error: Order Not Found" CallOutcome.ok rfl (by decide)
    (Or.inr (show |(30000 : ℚ) - 29990| > cfg.amend_threshold by
      rw [show cfg.amend_threshold = 5 from rfl]; norm_num))
    (by decide)
  refine ⟨h.1, h.2.1, ?_⟩
  rw [h.2.2, if_pos (by norm_num : (0 : ℚ) < 1/100)]

end ThalexQuoter
